import Mathlib

/-!
Shallow embedding of the l402-server payment subsystem.

Source files embedded here:
  - src/models/mod.rs          (User, PaymentMethod, PaymentStatus, PaymentRequest)
  - src/storage/mod.rs         (RedisStorage operations over the three key families)
  - src/payments/mod.rs        (PaymentService orchestration)
  - src/payments/lightning/mod.rs (LightningProvider conversion / webhook logic)
  - src/payments/coinbase/mod.rs  (CoinbaseProvider webhook verification)
  - src/utils/mod.rs           (Kraken-rate USD to satoshi conversion)

Modelling conventions:
  - chrono timestamps (DateTime of Utc) are integers counting milliseconds,
    so that chrono Duration.num_seconds is integer division by 1000 and
    Duration.minutes 30 is the integer 1800000.
  - Redis is modelled as a reliable key-value state (Store): the three key
    families user:.., payment:.., external_payment:.. become three finite
    maps; set_ex records the TTL argument next to the value.  Network and
    pool failures of Redis itself are environment faults outside the model;
    the lookup-miss errors (UserNotFound, PaymentRequestNotFound) that the
    code produces are modelled exactly.
  - Rust u32 arithmetic is Nat with an explicit mod 2^32 where the code can
    overflow (release-mode wraparound semantics); `as i32` and
    `unsigned_abs` casts are made explicit.
  - f64 amounts are modelled as exact rationals; on the concrete inputs
    used in the theorems below the f64 computations of the code are exact,
    so the rational model agrees with the binary floating point one there.
  - Outbound provider calls (LNBits check_invoice, HMAC digests, JSON
    parsing of webhook bodies) are oracles passed as explicit arguments;
    the control flow around them is translated from the source verbatim.
-/

namespace L402

/-! ## Data model (src/models/mod.rs) -/

/-- src/models/mod.rs `PaymentMethod`. -/
inductive PaymentMethod where
  | Lightning
  | Coinbase
deriving DecidableEq

/-- src/models/mod.rs `PaymentStatus`. -/
inductive PaymentStatus where
  | Pending
  | Paid
  | Expired
deriving DecidableEq

/-- src/models/mod.rs `User`.  `credits` is a u32 (values kept below 2^32). -/
structure User where
  id : String
  credits : Nat
  created_at : Int
  last_credit_update_at : Int
deriving DecidableEq

/-- src/models/mod.rs `PaymentRequest`. -/
structure PaymentRequest where
  id : String
  user_id : String
  offer_id : String
  credits : Nat
  status : PaymentStatus
  method : PaymentMethod
  expires_at : Int
  external_id : Option String
deriving DecidableEq

/-! ## Error types -/

/-- src/storage/mod.rs `StorageError` (payloads reduced to strings/units). -/
inductive StorageError where
  | ConnectionError
  | PoolError
  | UserNotFound
  | PaymentRequestNotFound
  | SerializationError
deriving DecidableEq

/-- src/payments/lightning/mod.rs `LightningError`. -/
inductive LightningError where
  | NetworkError
  | ApiError (msg : String)
  | ConfigError (msg : String)
  | SerializationError
  | LNBitsError
deriving DecidableEq

/-- src/payments/coinbase/mod.rs `CoinbaseError`. -/
inductive CoinbaseError where
  | NetworkError
  | ApiError (msg : String)
  | ConfigError (msg : String)
  | SerializationError
  | HmacError (msg : String)
  | InvalidWebhook (msg : String)
deriving DecidableEq

/-- src/payments/mod.rs `PaymentError`. -/
inductive PaymentError where
  | StorageError (e : StorageError)
  | LightningError (e : LightningError)
  | CoinbaseError (e : CoinbaseError)
  | InvalidPaymentMethod (m : PaymentMethod)
  | OfferNotFound (msg : String)
  | UserNotFound (msg : String)
  | InvalidInput (msg : String)
  | AlreadyProcessed (msg : String)
  | PaymentExpired (msg : String)
  | PaymentNotFound (msg : String)
  | ConversionError
  | InvalidOffer (msg : String)
deriving DecidableEq

/-! ## Payment store state (src/storage/mod.rs)

The three Redis key families become three maps.  Values written with
set_ex carry the TTL (in seconds, a u64) that the code passed. -/

/-- The Redis state seen through the three key families of
src/storage/mod.rs: `user:<id>`, `payment:<id>` and
`external_payment:<external_id>`.  TTL-carrying entries store the ttl
alongside the value. -/
structure Store where
  users : String → Option User
  payments : String → Option (PaymentRequest × Nat)
  extIndex : String → Option (String × Nat)

/-- Write one user record (the plain `conn.set` of `update_user_credits` /
`create_user`). -/
def Store.setUser (s : Store) (uid : String) (u : User) : Store :=
  { s with users := fun k => if k = uid then some u else s.users k }

/-- src/storage/mod.rs lines 154-162: TTL of a stored payment request.
`if expiry > now { (expiry - now).num_seconds() as u64 } else { 60 }`;
with millisecond timestamps, chrono num_seconds is division by 1000. -/
def paymentTtl (now expiresAt : Int) : Nat :=
  if now < expiresAt then (expiresAt - now).toNat / 1000 else 60

/-- src/storage/mod.rs `store_payment_request`: write the payment record
with TTL `paymentTtl`, and, when `external_id` is set, the external-id
index entry with the same TTL. -/
def store_payment_request (now : Int) (s : Store) (r : PaymentRequest) : Store :=
  let ttl := paymentTtl now r.expires_at
  let s1 : Store :=
    { s with payments := fun k => if k = r.id then some (r, ttl) else s.payments k }
  match r.external_id with
  | some ext =>
      { s1 with extIndex := fun k => if k = ext then some (r.id, ttl) else s1.extIndex k }
  | none => s1

/-- src/storage/mod.rs `get_payment_request` (a read miss becomes
`PaymentRequestNotFound`). -/
def get_payment_request (s : Store) (rid : String) :
    Except StorageError PaymentRequest :=
  match s.payments rid with
  | some (r, _) => .ok r
  | none => .error .PaymentRequestNotFound

/-- src/storage/mod.rs `get_payment_request_by_external_id`: resolve the
index entry, then fetch the record. -/
def get_payment_request_by_external_id (s : Store) (ext : String) :
    Except StorageError PaymentRequest :=
  match s.extIndex ext with
  | some (rid, _) => get_payment_request s rid
  | none => .error .PaymentRequestNotFound

/-- Rust `as i32` reinterpretation of a u32 value (used by
`payment_request.credits as i32` in src/payments/mod.rs line 291). -/
def i32_of_u32 (n : Nat) : Int :=
  if n < 2 ^ 31 then (n : Int) else (n : Int) - 2 ^ 32

/-- src/storage/mod.rs `update_user_credits` lines 104-143: read the user
(miss = UserNotFound), clamp a too-large negative delta to 0, otherwise
apply the delta (u32 addition wraps mod 2^32), stamp
`last_credit_update_at = now`, write back. -/
def update_user_credits (now : Int) (s : Store) (uid : String) (delta : Int) :
    Store × Except StorageError User :=
  match s.users uid with
  | none => (s, .error .UserNotFound)
  | some u =>
      let newCredits : Nat :=
        if delta < 0 ∧ u.credits < delta.natAbs then 0
        else if delta < 0 then u.credits - delta.natAbs
        else (u.credits + delta.toNat) % 2 ^ 32
      let u2 : User :=
        { u with credits := newCredits, last_credit_update_at := now }
      (s.setUser uid u2, .ok u2)

/-! ## Payment service (src/payments/mod.rs) -/

/-- src/payments/mod.rs `process_successful_payment` lines 267-301: no-op
when the status is not Pending; otherwise mark Paid, persist the record,
then apply the credit delta `credits as i32` to the user.  Returns the
resulting store together with the request as mutated in place by the
source (`&mut PaymentRequest`). -/
def process_successful_payment (now : Int) (s : Store) (r : PaymentRequest) :
    Store × Except PaymentError PaymentRequest :=
  if r.status ≠ .Pending then (s, .ok r)
  else
    let r2 : PaymentRequest := { r with status := .Paid }
    let s1 := store_payment_request now s r2
    match update_user_credits now s1 r.user_id (i32_of_u32 r.credits) with
    | (s2, .ok _) => (s2, .ok r2)
    | (s2, .error e) => (s2, .error (.StorageError e))

/-- src/payments/lightning/mod.rs `WebhookEvent`: the LNBits webhook
payload `{payment_hash, payment_status}`. -/
structure WebhookEvent where
  payment_hash : String
  payment_status : Bool
deriving DecidableEq

/-- src/payments/mod.rs `process_lightning_webhook` lines 386-442.
`verifyResult` is the outcome of `provider.verify_webhook(body, signature)`
(for the Lightning provider that is JSON parsing only; no signature check)
and `checkInvoice` is the oracle for `provider.check_invoice`. -/
def process_lightning_webhook (now : Int) (s : Store) (configured : Bool)
    (verifyResult : Except LightningError WebhookEvent)
    (checkInvoice : String → Except LightningError Bool) :
    Store × Except PaymentError (Option String) :=
  if configured = false then (s, .error (.InvalidPaymentMethod .Lightning))
  else
    match verifyResult with
    | .error e => (s, .error (.LightningError e))
    | .ok event =>
        match get_payment_request_by_external_id s event.payment_hash with
        | .error .PaymentRequestNotFound => (s, .ok none)
        | .error e => (s, .error (.StorageError e))
        | .ok r =>
            if r.status = .Paid then (s, .ok none)
            else if r.expires_at < now then (s, .ok none)
            else
              match checkInvoice event.payment_hash with
              | .error e => (s, .error (.LightningError e))
              | .ok false => (s, .ok none)
              | .ok true =>
                  match process_successful_payment now s r with
                  | (s2, .ok r2) => (s2, .ok (some r2.user_id))
                  | (s2, .error e) => (s2, .error e)

/-- src/payments/coinbase/mod.rs `CoinbaseWebhookEvent` (with its nested
`WebhookData` flattened to the two fields the code reads). -/
structure CoinbaseWebhookEvent where
  event_type : String
  data_id : String
  data_status : String
deriving DecidableEq

/-- src/payments/coinbase/mod.rs `is_payment_completed`. -/
def is_payment_completed (e : CoinbaseWebhookEvent) : Bool :=
  e.event_type == "charge:confirmed" && e.data_status == "CONFIRMED"

/-- src/payments/coinbase/mod.rs `get_charge_id`. -/
def get_charge_id (e : CoinbaseWebhookEvent) : String :=
  e.data_id

/-- src/payments/mod.rs `process_coinbase_webhook` lines 445-500. -/
def process_coinbase_webhook (now : Int) (s : Store) (configured : Bool)
    (verifyResult : Except CoinbaseError CoinbaseWebhookEvent) :
    Store × Except PaymentError (Option String) :=
  if configured = false then (s, .error (.InvalidPaymentMethod .Coinbase))
  else
    match verifyResult with
    | .error e => (s, .error (.CoinbaseError e))
    | .ok event =>
        match get_payment_request_by_external_id s (get_charge_id event) with
        | .error .PaymentRequestNotFound => (s, .ok none)
        | .error e => (s, .error (.StorageError e))
        | .ok r =>
            if r.status = .Paid then (s, .ok none)
            else if r.expires_at < now then (s, .ok none)
            else if is_payment_completed event = false then (s, .ok none)
            else
              match process_successful_payment now s r with
              | (s2, .ok r2) => (s2, .ok (some r2.user_id))
              | (s2, .error e) => (s2, .error e)

/-! ## HTTP webhook handlers (src/api/handlers.rs) -/

/-- src/api/handlers.rs `lightning_webhook` lines 95-125: Ok(Some _) and
Ok(None) both answer 200 OK, any error answers 400 Bad Request. -/
def lightning_webhook_handler (now : Int) (s : Store) (configured : Bool)
    (verifyResult : Except LightningError WebhookEvent)
    (checkInvoice : String → Except LightningError Bool) : Store × Nat :=
  match process_lightning_webhook now s configured verifyResult checkInvoice with
  | (s2, .ok _) => (s2, 200)
  | (s2, .error _) => (s2, 400)

/-- src/api/handlers.rs `coinbase_webhook` lines 206-236. -/
def coinbase_webhook_handler (now : Int) (s : Store) (configured : Bool)
    (verifyResult : Except CoinbaseError CoinbaseWebhookEvent) : Store × Nat :=
  match process_coinbase_webhook now s configured verifyResult with
  | (s2, .ok _) => (s2, 200)
  | (s2, .error _) => (s2, 400)

/-! ## Coinbase webhook signature verification (src/payments/coinbase/mod.rs) -/

/-- One lowercase hex digit as its ASCII byte (hex::encode output). -/
def hexDigit (n : Nat) : Nat :=
  if n < 10 then 48 + n else 87 + n

/-- hex::encode of a byte string, as the ASCII bytes of the lowercase hex
text (two digits per input byte). -/
def hexEncode (bytes : List Nat) : List Nat :=
  bytes.foldr (fun b acc => hexDigit (b / 16) :: hexDigit (b % 16) :: acc) []

/-- src/payments/coinbase/mod.rs `constant_time_eq` lines 288-299: early
false on length mismatch, then one pass accumulating `result |= x ^ y`
over the zipped bytes, accepting when the accumulator is 0. -/
def constant_time_eq (a b : List Nat) : Bool :=
  if a.length ≠ b.length then false
  else ((a.zip b).foldl (fun result p => result ||| (p.1 ^^^ p.2)) 0) == 0

/-- src/payments/coinbase/mod.rs `verify_webhook` lines 219-257.
`secretConfigured` is the presence of `coinbase_webhook_secret`;
`hmacDigest` is the byte output of the hmac/sha2 library call
HMAC-SHA256(webhook_secret, body) (left uninterpreted, always 32 bytes);
`parse` is the serde_json deserialization oracle for the body. -/
def coinbase_verify_webhook (secretConfigured : Bool) (hmacDigest : List Nat)
    (parse : List Nat → Option CoinbaseWebhookEvent)
    (body : List Nat) (signature : List Nat) :
    Except CoinbaseError CoinbaseWebhookEvent :=
  if secretConfigured = false then
    .error (.ConfigError "Coinbase webhook secret not configured")
  else if constant_time_eq (hexEncode hmacDigest) signature = false then
    .error (.InvalidWebhook "Invalid signature")
  else
    match parse body with
    | some e => .ok e
    | none => .error .SerializationError

/-! ## USD to satoshi conversion (src/utils/mod.rs and
src/payments/lightning/mod.rs) -/

/-- src/utils/mod.rs line 101: the cached rate computed from the Kraken
ticker price, `sats_per_usd = 100_000_000.0 / btc_price`. -/
def kraken_sats_per_usd (btcPrice : ℚ) : ℚ :=
  100000000 / btcPrice

/-- src/utils/mod.rs `convert_usd_to_sats` line 123: conversion through
the cached rate, `(amount_usd * sats_per_usd).ceil() as u64`. -/
def utils_convert_usd_to_sats (satsPerUsd : ℚ) (amountUsd : ℚ) : Nat :=
  (⌈amountUsd * satsPerUsd⌉).toNat

/-- src/payments/lightning/mod.rs line 140: the fixed provider-internal
rate `SATS_PER_USD: f64 = 2_000_000.0`. -/
def SATS_PER_USD : ℚ := 2000000

/-- src/payments/lightning/mod.rs `convert_usd_to_sats` lines 132-147:
`(amount_usd * SATS_PER_USD).ceil() as u64`. -/
def lightning_convert_usd_to_sats (amountUsd : ℚ) : Nat :=
  (⌈amountUsd * SATS_PER_USD⌉).toNat

/-- src/payments/mod.rs lines 190-198 composed with
src/payments/lightning/mod.rs lines 100-129: `create_lightning_payment`
converts the offer amount with `utils::convert_usd_to_sats`, then hands
the resulting satoshi count to `create_invoice`, whose `amount_usd`
parameter is converted once more through the fixed provider rate before
the invoice is created.  The invoice is created for the value returned
here. -/
def create_lightning_payment_invoice_sats (satsPerUsd : ℚ) (offerAmount : ℚ) : Nat :=
  lightning_convert_usd_to_sats (utils_convert_usd_to_sats satsPerUsd offerAmount : ℚ)

/-- Modelled from the spec (section 4.2): the specified conversion
`sub_units = ceil(amount_fiat * rate)` with the rate applied exactly
once.  Compared against `create_lightning_payment_invoice_sats`. -/
def spec_invoice_sats (satsPerUsd : ℚ) (offerAmount : ℚ) : Nat :=
  (⌈offerAmount * satsPerUsd⌉).toNat

/-! ## Lightning payment polling (src/payments/mod.rs lines 304-383) -/

/-- src/payments/mod.rs line 314: default timeout in minutes,
`timeout_minutes.unwrap_or(30)`, as milliseconds. -/
def pollTimeoutMs (timeoutMinutes : Option Nat) : Int :=
  ((timeoutMinutes.getD 30 : Nat) : Int) * 60000

/-- One iteration of the polling loop body of `start_payment_polling`
lines 328-378 (everything between the timeout check and the sleep):
`some r` means the iteration returned `r` from the loop, `none` means it
fell through to the next poll.  Branches in source order: a settled
invoice leads to a lookup and `process_successful_payment`, whose
Ok / AlreadyProcessed / PaymentExpired outcomes stop the loop with Ok and
whose other errors are logged and retried; a missing payment request
stops the loop with Ok; any other lookup error, an unsettled invoice and
a provider error all just continue polling. -/
def poll_body (hash : String) (check : Except LightningError Bool)
    (store : Store) (now : Int) : Option (Except PaymentError Unit) :=
  match check with
  | .ok true =>
      match get_payment_request_by_external_id store hash with
      | .ok r =>
          match process_successful_payment now store r with
          | (_, .ok _) => some (.ok ())
          | (_, .error (.AlreadyProcessed _)) => some (.ok ())
          | (_, .error (.PaymentExpired _)) => some (.ok ())
          | (_, .error _) => none
      | .error .PaymentRequestNotFound => some (.ok ())
      | .error _ => none
  | .ok false => none
  | .error _ => none

/-- The polling loop of `start_payment_polling` lines 321-382.  Iteration
n observes clock value `nows n`, provider answer `checkRes n` and store
snapshot `stores n` (the store may be mutated concurrently by the webhook
path).  `fuel` bounds the number of iterations considered; `none` means
the loop was still running after `fuel` iterations. -/
def poll_loop (hash : String) (checkRes : Nat → Except LightningError Bool)
    (stores : Nat → Store) (nows : Nat → Int) (start timeoutMs : Int) :
    Nat → Nat → Option (Except PaymentError Unit)
  | 0, _ => none
  | fuel + 1, n =>
    if timeoutMs < nows n - start then some (.ok ())
    else
      match poll_body hash (checkRes n) (stores n) (nows n) with
      | some r => some r
      | none => poll_loop hash checkRes stores nows start timeoutMs fuel (n + 1)

/-- src/payments/mod.rs `start_payment_polling` lines 304-383: fails with
InvalidPaymentMethod when no Lightning provider is configured, otherwise
runs the polling loop with `start = nows 0` observed at entry. -/
def start_payment_polling (configured : Bool) (hash : String)
    (timeoutMinutes : Option Nat) (checkRes : Nat → Except LightningError Bool)
    (stores : Nat → Store) (nows : Nat → Int) (fuel : Nat) :
    Option (Except PaymentError Unit) :=
  if configured = false then some (.error (.InvalidPaymentMethod .Lightning))
  else poll_loop hash checkRes stores nows (nows 0) (pollTimeoutMs timeoutMinutes) fuel 0

/-! ## Concrete sample data (used by witnesses and counterexamples) -/

/-- A store with no keys. -/
def emptyStore : Store :=
  { users := fun _ => none, payments := fun _ => none, extIndex := fun _ => none }

/-- A sample user record. -/
def sampleUser : User :=
  { id := "alice", credits := 5, created_at := 0, last_credit_update_at := 0 }

/-- A sample pending Lightning payment request, expiring far in the
future. -/
def sampleRequest : PaymentRequest :=
  { id := "pay1", user_id := "alice", offer_id := "offer1", credits := 3,
    status := .Pending, method := .Lightning, expires_at := 1000000000,
    external_id := some "hash1" }

/-- A store holding `sampleUser` and `sampleRequest` (with its external-id
index entry). -/
def sampleStore : Store :=
  { users := fun k => if k = "alice" then some sampleUser else none,
    payments := fun k => if k = "pay1" then some (sampleRequest, 1000) else none,
    extIndex := fun k => if k = "hash1" then some ("pay1", 1000) else none }

/-! ## Helper lemmas -/

theorem store_payment_request_users (now : Int) (s : Store) (r : PaymentRequest) :
    (store_payment_request now s r).users = s.users := by
  unfold store_payment_request
  cases r.external_id <;> rfl

theorem store_payment_request_payments_self (now : Int) (s : Store)
    (r : PaymentRequest) :
    (store_payment_request now s r).payments r.id =
      some (r, paymentTtl now r.expires_at) := by
  unfold store_payment_request
  cases r.external_id <;> simp

theorem store_payment_request_ext (now : Int) (s : Store) (r : PaymentRequest)
    (ext : String) (h : r.external_id = some ext) :
    (store_payment_request now s r).extIndex ext =
      some (r.id, paymentTtl now r.expires_at) := by
  unfold store_payment_request
  rw [h]
  simp

theorem nat_lor_eq_zero {m n : ℕ} : m ||| n = 0 ↔ m = 0 ∧ n = 0 := by
  constructor
  · intro h
    constructor
    · refine Nat.eq_of_testBit_eq fun k => ?_
      have hk := congrArg (fun x => Nat.testBit x k) h
      simp [Nat.testBit_lor] at hk
      simp [hk.1]
    · refine Nat.eq_of_testBit_eq fun k => ?_
      have hk := congrArg (fun x => Nat.testBit x k) h
      simp [Nat.testBit_lor] at hk
      simp [hk.2]
  · rintro ⟨rfl, rfl⟩
    rfl

theorem foldl_or_xor_eq_zero (l : List (Nat × Nat)) (acc : Nat) :
    l.foldl (fun result p => result ||| (p.1 ^^^ p.2)) acc = 0 ↔
      acc = 0 ∧ ∀ p ∈ l, p.1 = p.2 := by
  induction l generalizing acc with
  | nil => simp
  | cons x xs ih =>
      simp only [List.foldl_cons, ih, nat_lor_eq_zero, Nat.xor_eq_zero,
        List.mem_cons]
      constructor
      · rintro ⟨⟨h1, h2⟩, h3⟩
        exact ⟨h1, fun p hp => hp.elim (fun hpe => hpe ▸ h2) (h3 p)⟩
      · rintro ⟨h1, h2⟩
        exact ⟨⟨h1, h2 x (.inl rfl)⟩, fun p hp => h2 p (.inr hp)⟩

theorem zip_forall_eq : ∀ a b : List Nat, a.length = b.length →
    ((∀ p ∈ a.zip b, p.1 = p.2) ↔ a = b)
  | [], [], _ => by simp
  | [], _ :: _, h => by simp at h
  | _ :: _, [], h => by simp at h
  | x :: xs, y :: ys, h => by
      have h2 : xs.length = ys.length := by simpa using h
      have ih := zip_forall_eq xs ys h2
      simp only [List.zip_cons_cons, List.mem_cons, List.cons.injEq]
      constructor
      · intro hall
        exact ⟨hall (x, y) (Or.inl rfl), ih.mp fun p hp => hall p (Or.inr hp)⟩
      · rintro ⟨rfl, rfl⟩
        intro p hp
        rcases hp with hpe | hp2
        · rw [hpe]
        · exact (ih.mpr rfl) p hp2

theorem constant_time_eq_iff (a b : List Nat) :
    constant_time_eq a b = true ↔ a = b := by
  unfold constant_time_eq
  by_cases h : a.length = b.length
  · rw [if_neg (fun hne => hne h), beq_iff_eq, foldl_or_xor_eq_zero]
    simp only [eq_self_iff_true, true_and]
    exact zip_forall_eq a b h
  · rw [if_pos h]
    simp only [Bool.false_eq_true, false_iff]
    intro hab
    exact h (by rw [hab])

theorem hexEncode_length (l : List Nat) : (hexEncode l).length = 2 * l.length := by
  induction l with
  | nil => rfl
  | cons x xs ih =>
      simp only [hexEncode, List.foldr_cons, List.length_cons]
      simp only [hexEncode] at ih
      omega

theorem poll_body_ok (hash : String) (check : Except LightningError Bool)
    (store : Store) (now : Int) (r : Except PaymentError Unit)
    (h : poll_body hash check store now = some r) : r = .ok () := by
  unfold poll_body at h
  repeat split at h
  all_goals simp_all

theorem poll_loop_ok_of_time (hash : String)
    (checkRes : Nat → Except LightningError Bool) (stores : Nat → Store)
    (nows : Nat → Int) (start timeoutMs : Int)
    (hadv : ∀ n, nows n + 500 ≤ nows (n + 1)) :
    ∀ (fuel n : Nat), timeoutMs < nows n - start + 500 * (fuel : Int) →
      poll_loop hash checkRes stores nows start timeoutMs (fuel + 1) n =
        some (.ok ()) := by
  intro fuel
  induction fuel with
  | zero =>
      intro n h
      have h2 : timeoutMs < nows n - start := by push_cast at h; omega
      simp [poll_loop, h2]
  | succ fuel ih =>
      intro n h
      rw [poll_loop]
      by_cases hc : timeoutMs < nows n - start
      · rw [if_pos hc]
      · rw [if_neg hc]
        rcases hb : poll_body hash (checkRes n) (stores n) (nows n) with _ | r
        · refine ih (n + 1) ?_
          have := hadv n
          push_cast at h ⊢
          omega
        · rw [poll_body_ok hash (checkRes n) (stores n) (nows n) r hb]

/-! ## Claim theorems -/

/-- C10: every successful `update_user_credits` call modifies only the
`credits` and `last_credit_update_at` fields of the stored user: `id` and
`created_at` are preserved verbatim, `last_credit_update_at` is set to the
current time on every call (including delta = 0), and no other key of the
store is touched. -/
theorem c10_update_user_credits_frame (now : Int) (s : Store) (uid : String)
    (delta : Int) (u : User) (h : s.users uid = some u) :
    ∃ u2 : User,
      update_user_credits now s uid delta = (s.setUser uid u2, .ok u2) ∧
      u2.id = u.id ∧
      u2.created_at = u.created_at ∧
      u2.last_credit_update_at = now ∧
      (s.setUser uid u2).users uid = some u2 ∧
      (∀ k, k ≠ uid → (s.setUser uid u2).users k = s.users k) ∧
      (s.setUser uid u2).payments = s.payments ∧
      (s.setUser uid u2).extIndex = s.extIndex := by
  simp only [update_user_credits, h]
  refine ⟨_, rfl, rfl, rfl, rfl, ?_, ?_, rfl, rfl⟩
  · simp [Store.setUser]
  · intro k hk
    simp [Store.setUser, hk]

/-- C10 witness: instantiation on the sample store with delta = 0. -/
theorem c10_witness :
    sampleStore.users "alice" = some sampleUser ∧
    ∃ u2 : User,
      update_user_credits 77 sampleStore "alice" 0 =
          (sampleStore.setUser "alice" u2, .ok u2) ∧
      u2.id = sampleUser.id ∧
      u2.created_at = sampleUser.created_at ∧
      u2.last_credit_update_at = 77 ∧
      (sampleStore.setUser "alice" u2).users "alice" = some u2 ∧
      (∀ k, k ≠ "alice" →
        (sampleStore.setUser "alice" u2).users k = sampleStore.users k) ∧
      (sampleStore.setUser "alice" u2).payments = sampleStore.payments ∧
      (sampleStore.setUser "alice" u2).extIndex = sampleStore.extIndex :=
  ⟨rfl, c10_update_user_credits_frame 77 sampleStore "alice" 0 sampleUser rfl⟩

/-- A user holding the maximal u32 credit balance, exhibiting u32
wraparound in `update_user_credits`. -/
def maxUser : User :=
  { id := "bob", credits := 4294967295, created_at := 0,
    last_credit_update_at := 0 }

/-- A store holding only `maxUser`. -/
def maxStore : Store :=
  { emptyStore with users := fun k => if k = "bob" then some maxUser else none }

/-- C4 counterexample: for a user with the maximal u32 balance 2^32 - 1
and delta = +1 (a non-clamping delta, so the claim asserts the result
equals credits + delta = 2^32), the stored result is 0: the u32 addition
wraps around, so the unconditional equation of the claim fails. -/
theorem c4_counterexample :
    (update_user_credits 7 maxStore "bob" 1).2 =
      .ok { id := "bob", credits := 0, created_at := 0,
            last_credit_update_at := 7 } ∧
    maxUser.credits = 4294967295 ∧
    (0 : Nat) ≠ 4294967295 + 1 := by
  refine ⟨?_, rfl, by decide⟩
  rfl

/-- C4 (amended): `update_user_credits` never produces a negative balance;
a negative delta whose magnitude exceeds the current credits clamps the
result to exactly 0; any other negative delta yields credits + delta; a
non-negative delta yields (credits + delta) mod 2^32, which equals
credits + delta whenever that sum stays below 2^32 (the unqualified
equation of the claim fails only at u32 overflow, where the addition
wraps). -/
theorem c4_update_user_credits_clamp (now : Int) (s : Store) (uid : String)
    (delta : Int) (u : User) (h : s.users uid = some u) :
    ∃ u2 : User,
      (update_user_credits now s uid delta).2 = .ok u2 ∧
      (update_user_credits now s uid delta).1.users uid = some u2 ∧
      (0 : Int) ≤ (u2.credits : Int) ∧
      (delta < 0 → (u.credits : Int) < -delta → u2.credits = 0) ∧
      (delta < 0 → -delta ≤ (u.credits : Int) →
        (u2.credits : Int) = (u.credits : Int) + delta) ∧
      (0 ≤ delta → u2.credits = (u.credits + delta.toNat) % 2 ^ 32) ∧
      (0 ≤ delta → u.credits + delta.toNat < 2 ^ 32 →
        (u2.credits : Int) = (u.credits : Int) + delta) := by
  simp only [update_user_credits, h]
  refine ⟨_, rfl, by simp [Store.setUser], by positivity, ?_, ?_, ?_, ?_⟩
  · intro h1 h2
    have hcond : delta < 0 ∧ u.credits < delta.natAbs := ⟨h1, by omega⟩
    simp only [hcond, if_pos, and_self, if_true]
  · intro h1 h2
    have hcond : ¬(delta < 0 ∧ u.credits < delta.natAbs) := by
      rintro ⟨_, hlt⟩
      omega
    simp only [hcond, if_false, if_pos h1]
    omega
  · intro h1
    have h2 : ¬ delta < 0 := by omega
    simp only [h2, false_and, if_false]
  · intro h1 h2
    have h3 : ¬ delta < 0 := by omega
    simp only [h3, false_and, if_false]
    rw [Nat.mod_eq_of_lt h2]
    omega

/-- C4 witness: clamp case on the sample store, credits 5, delta -9:
result is exactly 0. -/
theorem c4_witness :
    sampleStore.users "alice" = some sampleUser ∧
    ∃ u2 : User,
      (update_user_credits 3 sampleStore "alice" (-9)).2 = .ok u2 ∧
      (update_user_credits 3 sampleStore "alice" (-9)).1.users "alice" =
        some u2 ∧
      (0 : Int) ≤ (u2.credits : Int) ∧
      ((-9 : Int) < 0 → (sampleUser.credits : Int) < -(-9 : Int) →
        u2.credits = 0) ∧
      ((-9 : Int) < 0 → -(-9 : Int) ≤ (sampleUser.credits : Int) →
        (u2.credits : Int) = (sampleUser.credits : Int) + (-9 : Int)) ∧
      ((0 : Int) ≤ -9 →
        u2.credits = (sampleUser.credits + (-9 : Int).toNat) % 2 ^ 32) ∧
      ((0 : Int) ≤ -9 → sampleUser.credits + (-9 : Int).toNat < 2 ^ 32 →
        (u2.credits : Int) = (sampleUser.credits : Int) + (-9 : Int)) :=
  ⟨rfl, c4_update_user_credits_clamp 3 sampleStore "alice" (-9) sampleUser rfl⟩

/-- A pending payment request that expires 500 milliseconds from time 0:
strictly in the future, yet with less than one whole second remaining. -/
def subSecondRequest : PaymentRequest :=
  { id := "p0", user_id := "alice", offer_id := "offer1", credits := 1,
    status := .Pending, method := .Lightning, expires_at := 500,
    external_id := some "e0" }

/-- C5 counterexample: storing a payment request whose `expires_at` lies
500 ms in the future writes BOTH the record and its external-id index
entry with TTL 0 — `(expiry - now).num_seconds()` truncates the
sub-second remainder to zero — refuting the claim that the TTL written is
never zero. -/
theorem c5_counterexample :
    (0 : Int) < subSecondRequest.expires_at ∧
    paymentTtl 0 subSecondRequest.expires_at = 0 ∧
    (store_payment_request 0 emptyStore subSecondRequest).payments "p0" =
      some (subSecondRequest, 0) ∧
    (store_payment_request 0 emptyStore subSecondRequest).extIndex "e0" =
      some ("p0", 0) := by
  refine ⟨by decide, by decide, ?_, ?_⟩ <;> rfl

/-- C5 (amended): the payment record and (when `external_id` is set) its
external-id index entry are always written with the same TTL, equal to
the whole seconds remaining until `expires_at` when `expires_at` is in
the future and to 60 seconds when already expired; the TTL is never
negative (it is a u64) but it CAN be zero, when less than one whole
second remains before expiry. -/
theorem c5_store_payment_request_ttl (now : Int) (s : Store)
    (r : PaymentRequest) :
    (store_payment_request now s r).payments r.id =
      some (r, paymentTtl now r.expires_at) ∧
    (∀ ext, r.external_id = some ext →
      (store_payment_request now s r).extIndex ext =
        some (r.id, paymentTtl now r.expires_at)) ∧
    (now < r.expires_at →
      paymentTtl now r.expires_at = (r.expires_at - now).toNat / 1000) ∧
    (¬ now < r.expires_at → paymentTtl now r.expires_at = 60) := by
  refine ⟨store_payment_request_payments_self now s r, ?_, ?_, ?_⟩
  · intro ext hext
    exact store_payment_request_ext now s r ext hext
  · intro hfut
    simp [paymentTtl, hfut]
  · intro hpast
    simp [paymentTtl, hpast]

/-- C5 witness: instantiation at time 0 on a request expiring at 5700 ms:
both entries carry TTL 5 (= 5700 ms truncated to whole seconds). -/
theorem c5_witness :
    (store_payment_request 0 emptyStore
        { sampleRequest with expires_at := 5700 }).payments "pay1" =
      some ({ sampleRequest with expires_at := 5700 }, 5) ∧
    (store_payment_request 0 emptyStore
        { sampleRequest with expires_at := 5700 }).extIndex "hash1" =
      some ("pay1", 5) ∧
    paymentTtl 0 (5700 : Int) = 5 := by
  have h := c5_store_payment_request_ttl 0 emptyStore
    { sampleRequest with expires_at := 5700 }
  refine ⟨h.1, h.2.1 "hash1" rfl, ?_⟩
  have h3 := h.2.2.1 (by decide)
  simpa using h3

/-- C1: `process_successful_payment` is idempotent.  For a request whose
status is not Pending it returns success and leaves the whole store (so
both the stored payment record and the user credits) unchanged.  For a
pending request (user present, credit amounts within u32 range), the
first call marks the record Paid and adds exactly `r.credits` to the
user; running the settlement again on the same (now Paid) request —
webhook and poll reconciliation both firing — returns success, leaves
the store unchanged, and so grants the credits exactly once. -/
theorem c1_process_successful_payment_idempotent (now now2 : Int) (s : Store)
    (r : PaymentRequest) :
    (r.status ≠ .Pending → process_successful_payment now s r = (s, .ok r)) ∧
    (∀ u : User, r.status = .Pending → s.users r.user_id = some u →
      r.credits < 2 ^ 31 → u.credits + r.credits < 2 ^ 32 →
      ∃ (s1 : Store) (r1 : PaymentRequest),
        process_successful_payment now s r = (s1, .ok r1) ∧
        r1 = { r with status := .Paid } ∧
        s1.payments r.id =
          some ({ r with status := .Paid }, paymentTtl now r.expires_at) ∧
        (s1.users r.user_id).map User.credits = some (u.credits + r.credits) ∧
        process_successful_payment now2 s1 r1 = (s1, .ok r1)) := by
  constructor
  · intro h
    simp [process_successful_payment, h]
  · intro u hPend hu hc1 hc2
    have hstep :
        process_successful_payment now s r =
          (let r2 : PaymentRequest := { r with status := .Paid }
           let s1 := store_payment_request now s r2
           match update_user_credits now s1 r.user_id (i32_of_u32 r.credits) with
           | (s2, .ok _) => (s2, .ok r2)
           | (s2, .error e) => (s2, .error (.StorageError e))) := by
      simp [process_successful_payment, hPend]
    set r2 : PaymentRequest := { r with status := .Paid } with hr2
    set sA := store_payment_request now s r2 with hsA
    have husers : sA.users r.user_id = some u := by
      rw [hsA, store_payment_request_users]
      exact hu
    have hdelta : i32_of_u32 r.credits = (r.credits : Int) := by
      unfold i32_of_u32
      rw [if_pos hc1]
    have hupd :
        update_user_credits now sA r.user_id (i32_of_u32 r.credits) =
          (sA.setUser r.user_id
            { u with credits := u.credits + r.credits,
                     last_credit_update_at := now },
           .ok { u with credits := u.credits + r.credits,
                        last_credit_update_at := now }) := by
      simp only [update_user_credits, husers, hdelta]
      have hneg : ¬ ((r.credits : Int) < 0) := by omega
      simp only [hneg, false_and, if_false, Int.toNat_natCast]
      rw [Nat.mod_eq_of_lt hc2]
    refine ⟨sA.setUser r.user_id
        { u with credits := u.credits + r.credits,
                 last_credit_update_at := now }, r2, ?_, rfl, ?_, ?_, ?_⟩
    · rw [hstep]
      simp only []
      rw [hupd]
    · have hid : r2.id = r.id := rfl
      have hexp : r2.expires_at = r.expires_at := rfl
      simp only [Store.setUser]
      rw [← hid, ← hexp, hsA, store_payment_request_payments_self]
    · simp [Store.setUser]
    · have hstat : r2.status = .Paid := rfl
      simp [process_successful_payment, hstat]

/-- C1 witness: on the sample store (alice holds 5 credits, request grants
3 and is pending), settling once yields 8 credits and a Paid record;
settling again is a no-op that leaves the store and the 8 credits as they
are. -/
theorem c1_witness :
    sampleRequest.status = .Pending ∧
    sampleStore.users "alice" = some sampleUser ∧
    ∃ (s1 : Store) (r1 : PaymentRequest),
      process_successful_payment 0 sampleStore sampleRequest = (s1, .ok r1) ∧
      r1 = { sampleRequest with status := .Paid } ∧
      s1.payments "pay1" =
        some ({ sampleRequest with status := .Paid },
              paymentTtl 0 sampleRequest.expires_at) ∧
      (s1.users "alice").map User.credits = some (5 + 3) ∧
      process_successful_payment 9 s1 r1 = (s1, .ok r1) :=
  ⟨rfl, rfl,
    (c1_process_successful_payment_idempotent 0 9 sampleStore sampleRequest).2
      sampleUser rfl rfl (by decide) (by decide)⟩

/-- C3 counterexample: a Lightning webhook whose payload reports paid
(`payment_status = true`) for a known pending, unexpired request, with
`check_invoice` failing: processing returns the provider error (so the
handler answers 400) and the store — in particular the user's credits —
is unchanged.  The claim asserts the opposite: that the implementation
falls back to trusting the payload flag and settles. -/
theorem c3_counterexample :
    process_lightning_webhook 0 sampleStore true
        (.ok { payment_hash := "hash1", payment_status := true })
        (fun _ => .error (.ApiError "provider down")) =
      (sampleStore, .error (.LightningError (.ApiError "provider down"))) ∧
    lightning_webhook_handler 0 sampleStore true
        (.ok { payment_hash := "hash1", payment_status := true })
        (fun _ => .error (.ApiError "provider down")) =
      (sampleStore, 400) ∧
    (sampleStore.users "alice").map User.credits = some 5 ∧
    sampleStore.payments "pay1" = some (sampleRequest, 1000) ∧
    sampleRequest.status = .Pending := by
  exact ⟨rfl, rfl, rfl, rfl, rfl⟩

/-- C3 (amended): during Lightning webhook processing, if the secondary
`check_invoice` call fails with a provider error, the implementation does
NOT fall back to the webhook payload flag — the error propagates, the
webhook is rejected (the handler answers 400 Bad Request) and no
settlement occurs (store unchanged).  Moreover the payload's
`payment_status` flag is never consulted: the outcome is identical for
either value of the flag. -/
theorem c3_check_invoice_error_rejects (now : Int) (s : Store)
    (ev : WebhookEvent) (chk : String → Except LightningError Bool)
    (err : LightningError) (r : PaymentRequest)
    (hlook : get_payment_request_by_external_id s ev.payment_hash = .ok r)
    (hstat : r.status ≠ .Paid) (hexp : ¬ r.expires_at < now)
    (hchk : chk ev.payment_hash = .error err) :
    process_lightning_webhook now s true (.ok ev) chk =
      (s, .error (.LightningError err)) ∧
    lightning_webhook_handler now s true (.ok ev) chk = (s, 400) ∧
    (∀ b : Bool,
      process_lightning_webhook now s true
          (.ok { payment_hash := ev.payment_hash, payment_status := b }) chk =
        (s, .error (.LightningError err))) := by
  have hmain : process_lightning_webhook now s true (.ok ev) chk =
      (s, .error (.LightningError err)) := by
    simp [process_lightning_webhook, hlook, hstat, hexp, hchk]
  refine ⟨hmain, ?_, ?_⟩
  · simp [lightning_webhook_handler, hmain]
  · intro b
    simp [process_lightning_webhook, hlook, hstat, hexp, hchk]

/-- C3 witness: instantiation of the amended theorem on the sample store
with a failing provider. -/
theorem c3_witness :
    get_payment_request_by_external_id sampleStore "hash1" =
      .ok sampleRequest ∧
    sampleRequest.status ≠ .Paid ∧
    ¬ sampleRequest.expires_at < (3 : Int) ∧
    (process_lightning_webhook 3 sampleStore true
        (.ok { payment_hash := "hash1", payment_status := false })
        (fun _ => .error .NetworkError) =
      (sampleStore, .error (.LightningError .NetworkError)) ∧
    lightning_webhook_handler 3 sampleStore true
        (.ok { payment_hash := "hash1", payment_status := false })
        (fun _ => .error .NetworkError) = (sampleStore, 400) ∧
    (∀ b : Bool,
      process_lightning_webhook 3 sampleStore true
          (.ok { payment_hash := "hash1", payment_status := b })
          (fun _ => .error .NetworkError) =
        (sampleStore, .error (.LightningError .NetworkError)))) :=
  ⟨rfl, by decide, by decide,
    c3_check_invoice_error_rejects 3 sampleStore
      { payment_hash := "hash1", payment_status := false }
      (fun _ => .error .NetworkError) .NetworkError sampleRequest
      rfl (by decide) (by decide) rfl⟩

/-- C7: a webhook (Lightning or Coinbase) that passes verification but
arrives after the referenced request's `expires_at` is ignored: the
processor returns Ok(None) and the store — payment record status and user
credits included — is unchanged. -/
theorem c7_expired_webhook_ignored (now : Int) (s : Store)
    (ev : WebhookEvent) (chk : String → Except LightningError Bool)
    (cev : CoinbaseWebhookEvent) (r rc : PaymentRequest) :
    (get_payment_request_by_external_id s ev.payment_hash = .ok r →
      r.expires_at < now →
      process_lightning_webhook now s true (.ok ev) chk = (s, .ok none)) ∧
    (get_payment_request_by_external_id s (get_charge_id cev) = .ok rc →
      rc.expires_at < now →
      process_coinbase_webhook now s true (.ok cev) = (s, .ok none)) := by
  constructor
  · intro hlook hexp
    by_cases hp : r.status = .Paid
    · simp [process_lightning_webhook, hlook, hp]
    · simp [process_lightning_webhook, hlook, hp, hexp]
  · intro hlook hexp
    by_cases hp : rc.status = .Paid
    · simp [process_coinbase_webhook, hlook, hp]
    · simp [process_coinbase_webhook, hlook, hp, hexp]

/-- C7 witness: on the sample store at a time past `expires_at`, both
webhook paths answer Ok(None) and leave the store alone. -/
theorem c7_witness :
    get_payment_request_by_external_id sampleStore "hash1" =
      .ok sampleRequest ∧
    sampleRequest.expires_at < (2000000000 : Int) ∧
    process_lightning_webhook 2000000000 sampleStore true
        (.ok { payment_hash := "hash1", payment_status := true })
        (fun _ => .ok true) = (sampleStore, .ok none) ∧
    process_coinbase_webhook 2000000000 sampleStore true
        (.ok { event_type := "charge:confirmed", data_id := "hash1",
               data_status := "CONFIRMED" }) = (sampleStore, .ok none) :=
  ⟨rfl, by decide,
    (c7_expired_webhook_ignored 2000000000 sampleStore
        { payment_hash := "hash1", payment_status := true } (fun _ => .ok true)
        { event_type := "charge:confirmed", data_id := "hash1",
          data_status := "CONFIRMED" } sampleRequest sampleRequest).1
      rfl (by decide),
    (c7_expired_webhook_ignored 2000000000 sampleStore
        { payment_hash := "hash1", payment_status := true } (fun _ => .ok true)
        { event_type := "charge:confirmed", data_id := "hash1",
          data_status := "CONFIRMED" } sampleRequest sampleRequest).2
      rfl (by decide)⟩

/-- C8: an authenticated webhook whose external id resolves to no stored
payment request is a benign no-op: both processors answer Ok(None), both
HTTP handlers answer 200 OK, and the store is unchanged. -/
theorem c8_unknown_external_id_noop (now : Int) (s : Store)
    (ev : WebhookEvent) (chk : String → Except LightningError Bool)
    (cev : CoinbaseWebhookEvent)
    (hl : get_payment_request_by_external_id s ev.payment_hash =
      .error .PaymentRequestNotFound)
    (hcb : get_payment_request_by_external_id s (get_charge_id cev) =
      .error .PaymentRequestNotFound) :
    process_lightning_webhook now s true (.ok ev) chk = (s, .ok none) ∧
    lightning_webhook_handler now s true (.ok ev) chk = (s, 200) ∧
    process_coinbase_webhook now s true (.ok cev) = (s, .ok none) ∧
    coinbase_webhook_handler now s true (.ok cev) = (s, 200) := by
  have h1 : process_lightning_webhook now s true (.ok ev) chk =
      (s, .ok none) := by
    simp [process_lightning_webhook, hl]
  have h2 : process_coinbase_webhook now s true (.ok cev) = (s, .ok none) := by
    simp [process_coinbase_webhook, hcb]
  exact ⟨h1, by simp [lightning_webhook_handler, h1], h2,
    by simp [coinbase_webhook_handler, h2]⟩

/-- C8 witness: webhooks for an id absent from the sample store. -/
theorem c8_witness :
    get_payment_request_by_external_id sampleStore "unknown" =
      .error .PaymentRequestNotFound ∧
    (process_lightning_webhook 3 sampleStore true
        (.ok { payment_hash := "unknown", payment_status := true })
        (fun _ => .ok true) = (sampleStore, .ok none) ∧
    lightning_webhook_handler 3 sampleStore true
        (.ok { payment_hash := "unknown", payment_status := true })
        (fun _ => .ok true) = (sampleStore, 200) ∧
    process_coinbase_webhook 3 sampleStore true
        (.ok { event_type := "charge:confirmed", data_id := "unknown",
               data_status := "CONFIRMED" }) = (sampleStore, .ok none) ∧
    coinbase_webhook_handler 3 sampleStore true
        (.ok { event_type := "charge:confirmed", data_id := "unknown",
               data_status := "CONFIRMED" }) = (sampleStore, 200)) :=
  ⟨rfl,
    c8_unknown_external_id_noop 3 sampleStore
      { payment_hash := "unknown", payment_status := true } (fun _ => .ok true)
      { event_type := "charge:confirmed", data_id := "unknown",
        data_status := "CONFIRMED" } rfl rfl⟩

/-- C6: Coinbase `verify_webhook` accepts a (body, signature) pair iff the
signature equals the lowercase hex encoding of the HMAC-SHA256 digest of
the raw body under the configured webhook secret AND the body parses as a
webhook event; any mismatched signature — the empty signature in
particular, since the digest is 32 bytes so its hex text is 64 bytes — is
rejected with an error; and the comparison the accept path uses,
`constant_time_eq` (embedded above with its data-independent
length-check-then-full-xor-fold structure), is a correct equality test.
(Its wall-clock constant-time character is a timing property outside a
functional embedding.) -/
theorem c6_coinbase_verify_webhook (hmacDigest : List Nat)
    (parse : List Nat → Option CoinbaseWebhookEvent)
    (body sig : List Nat) (e : CoinbaseWebhookEvent)
    (hlen : hmacDigest.length = 32) :
    (coinbase_verify_webhook true hmacDigest parse body sig = .ok e ↔
      (sig = hexEncode hmacDigest ∧ parse body = some e)) ∧
    (sig ≠ hexEncode hmacDigest →
      coinbase_verify_webhook true hmacDigest parse body sig =
        .error (.InvalidWebhook "Invalid signature")) ∧
    (coinbase_verify_webhook true hmacDigest parse body [] =
      .error (.InvalidWebhook "Invalid signature")) ∧
    (∀ a b : List Nat, constant_time_eq a b = true ↔ a = b) := by
  have hrej : ∀ s2 : List Nat, s2 ≠ hexEncode hmacDigest →
      coinbase_verify_webhook true hmacDigest parse body s2 =
        .error (.InvalidWebhook "Invalid signature") := by
    intro s2 hne
    have hcmp : constant_time_eq (hexEncode hmacDigest) s2 = false := by
      rcases Bool.eq_false_or_eq_true
          (constant_time_eq (hexEncode hmacDigest) s2) with ht | hf
      · exact absurd ((constant_time_eq_iff _ _).mp ht).symm hne
      · exact hf
    simp [coinbase_verify_webhook, hcmp]
  refine ⟨?_, hrej sig, ?_, constant_time_eq_iff⟩
  · constructor
    · intro hok
      by_cases hs : sig = hexEncode hmacDigest
      · refine ⟨hs, ?_⟩
        have hcmp : constant_time_eq (hexEncode hmacDigest) sig = true :=
          (constant_time_eq_iff _ _).mpr hs.symm
        simp only [coinbase_verify_webhook, hcmp] at hok
        simp at hok
        rcases hparse : parse body with _ | e2
        · rw [hparse] at hok
          simp at hok
        · rw [hparse] at hok
          simp at hok
          rw [hok]
      · rw [hrej sig hs] at hok
        simp at hok
    · rintro ⟨rfl, hparse⟩
      have hcmp : constant_time_eq (hexEncode hmacDigest)
          (hexEncode hmacDigest) = true :=
        (constant_time_eq_iff _ _).mpr rfl
      simp [coinbase_verify_webhook, hcmp, hparse]
  · refine hrej [] ?_
    intro habs
    have := hexEncode_length hmacDigest
    rw [← habs] at this
    simp [hlen] at this

/-- C6 witness: a two-byte digest example — with digest bytes
[0xab, 0x01] the hex text is "ab01"; the exact signature is accepted and
the event parsed, the empty signature is rejected, and
`constant_time_eq` agrees with equality on sample byte strings.  (The
32-byte-length hypothesis is discharged on a concrete 32-byte digest for
the acceptance equivalence.) -/
theorem c6_witness :
    ((List.replicate 32 (171 : Nat)).length = 32) ∧
    (coinbase_verify_webhook true (List.replicate 32 171)
        (fun _ => some { event_type := "charge:confirmed",
                         data_id := "c1", data_status := "CONFIRMED" })
        [123] (hexEncode (List.replicate 32 171)) =
      .ok { event_type := "charge:confirmed", data_id := "c1",
            data_status := "CONFIRMED" } ↔
      (hexEncode (List.replicate 32 171) = hexEncode (List.replicate 32 171) ∧
        (fun _ : List Nat =>
            some ({ event_type := "charge:confirmed", data_id := "c1",
                    data_status := "CONFIRMED" } : CoinbaseWebhookEvent)) [123] =
          some ({ event_type := "charge:confirmed", data_id := "c1",
                  data_status := "CONFIRMED" } : CoinbaseWebhookEvent))) ∧
    (coinbase_verify_webhook true (List.replicate 32 171)
        (fun _ => some { event_type := "charge:confirmed",
                         data_id := "c1", data_status := "CONFIRMED" })
        [123] [] =
      .error (.InvalidWebhook "Invalid signature")) ∧
    (∀ a b : List Nat, constant_time_eq a b = true ↔ a = b) :=
  ⟨by decide,
    (c6_coinbase_verify_webhook (List.replicate 32 171)
        (fun _ => some { event_type := "charge:confirmed", data_id := "c1",
                         data_status := "CONFIRMED" })
        [123] (hexEncode (List.replicate 32 171))
        { event_type := "charge:confirmed", data_id := "c1",
          data_status := "CONFIRMED" } (by decide)).1,
    (c6_coinbase_verify_webhook (List.replicate 32 171)
        (fun _ => some { event_type := "charge:confirmed", data_id := "c1",
                         data_status := "CONFIRMED" })
        [123] (hexEncode (List.replicate 32 171))
        { event_type := "charge:confirmed", data_id := "c1",
          data_status := "CONFIRMED" } (by decide)).2.2.1,
    (c6_coinbase_verify_webhook (List.replicate 32 171)
        (fun _ => some { event_type := "charge:confirmed", data_id := "c1",
                         data_status := "CONFIRMED" })
        [123] (hexEncode (List.replicate 32 171))
        { event_type := "charge:confirmed", data_id := "c1",
          data_status := "CONFIRMED" } (by decide)).2.2.2⟩

/-- C2, evaluated at the failing input: with the cached Kraken rate for a
BTC price of 50000 USD (2000 sats per USD) and an offer amount of 1 USD,
the invoice is created for 4,000,000,000 sats, not the
ceil(1 × 2000) = 2000 sats the claim specifies: `create_lightning_payment`
converts USD to sats through the cached rate and then hands the satoshi
count to `create_invoice`, whose `amount_usd` parameter applies the fixed
2,000,000 sats/USD provider rate a second time — the rate is applied
twice, never once. -/
theorem c2_conversion_applied_twice :
    create_lightning_payment_invoice_sats (kraken_sats_per_usd 50000) 1 =
      4000000000 ∧
    spec_invoice_sats (kraken_sats_per_usd 50000) 1 = 2000 ∧
    create_lightning_payment_invoice_sats (kraken_sats_per_usd 50000) 1 ≠
      spec_invoice_sats (kraken_sats_per_usd 50000) 1 := by
  have hrate : kraken_sats_per_usd 50000 = 2000 := by
    norm_num [kraken_sats_per_usd]
  have hutils : utils_convert_usd_to_sats (kraken_sats_per_usd 50000) 1 =
      2000 := by
    rw [hrate]
    norm_num [utils_convert_usd_to_sats]
    rfl
  have hspec : spec_invoice_sats (kraken_sats_per_usd 50000) 1 = 2000 := by
    rw [hrate]
    norm_num [spec_invoice_sats]
    rfl
  have hfull : create_lightning_payment_invoice_sats
      (kraken_sats_per_usd 50000) 1 = 4000000000 := by
    rw [create_lightning_payment_invoice_sats, hutils]
    norm_num [lightning_convert_usd_to_sats, SATS_PER_USD]
    rfl
  exact ⟨hfull, hspec, by rw [hfull, hspec]; decide⟩

/-- C9: with a configured Lightning provider, the polling loop always
terminates with success.  If each iteration advances the clock by at
least the 500 ms poll interval, then whatever the provider answers
(including persistent errors), whatever the store holds, and whatever the
settlement attempts return, the loop has exited — via the timeout check
at the latest — within 3602 iterations of the default 30-minute budget,
and the result is Ok: transient provider or storage errors never abort
the loop with an error. -/
theorem c9_polling_terminates (hash : String)
    (checkRes : Nat → Except LightningError Bool) (stores : Nat → Store)
    (nows : Nat → Int) (hadv : ∀ n, nows n + 500 ≤ nows (n + 1)) :
    start_payment_polling true hash none checkRes stores nows 3602 =
      some (.ok ()) := by
  unfold start_payment_polling
  simp only [Bool.true_eq_false, if_false]
  have h3602 : (3602 : Nat) = 3601 + 1 := rfl
  rw [h3602]
  refine poll_loop_ok_of_time hash checkRes stores nows (nows 0)
    (pollTimeoutMs none) hadv 3601 0 ?_
  have : pollTimeoutMs none = 1800000 := rfl
  rw [this]
  norm_num

/-- C9 witness: a clock advancing exactly 500 ms per iteration and a
provider that always fails still give a successful exit. -/
theorem c9_witness :
    (∀ n : Nat, (fun k : Nat => 500 * (k : Int)) n + 500 ≤
      (fun k : Nat => 500 * (k : Int)) (n + 1)) ∧
    start_payment_polling true "hash1" none (fun _ => .error .NetworkError)
        (fun _ => emptyStore) (fun k : Nat => 500 * (k : Int)) 3602 =
      some (.ok ()) := by
  have hadv : ∀ n : Nat, (fun k : Nat => 500 * (k : Int)) n + 500 ≤
      (fun k : Nat => 500 * (k : Int)) (n + 1) := by
    intro n
    simp only []
    push_cast
    omega
  exact ⟨hadv, c9_polling_terminates "hash1" (fun _ => .error .NetworkError)
    (fun _ => emptyStore) (fun k : Nat => 500 * (k : Int)) hadv⟩

end L402
